import Mathlib

/-!
# Verification of the HNG DevOps blue/green log watcher (`src/watcher/watcher.py`)

Shallow embedding of the stateful core of `watcher.py`:

* `AlertManager` (the spec's CooldownGate) — per-alert-kind timestamp gate;
* `PoolTracker` — last-known serving pool, failover detection;
* `ErrorRateMonitor` (the spec's ErrorWindowMonitor) — sliding window of
  status codes with a breach predicate;
* `LogWatcher.process_log_entry` (the spec's EventProcessor) — the per-event
  decision procedure, including its `try/except` wrapper.

Modelling conventions:

* Python `float` arithmetic is modelled with `ℚ` (exact rationals); the
  quantities compared here (`count / len * 100` against a threshold) are the
  exact values the code computes up to floating-point rounding.
* Wall-clock time (`datetime.now()`) is passed explicitly as a `ℚ` number of
  seconds; `timedelta(seconds=n)` for the integer `cooldown_seconds` is the
  cast `(n : ℚ)`.
* The per-instance `threading.Lock` scopes serialize access in the source; in
  this single-threaded functional embedding every method is already atomic,
  so the locks have no residue.
* `collections.deque(maxlen=m)` is a list together with the append-with-
  eviction operation `dequeAppend`.
* JSON-decoded field values are modelled by `PyVal`; Python's `int(...)`
  conversion and `str.lower().strip()` are modelled by `pyToInt` and
  `pyLowerStrip`, which fail (raise) exactly when the source operations do.
* Outcomes of the outbound `requests.post` call in `SlackNotifier` are an
  explicit boolean parameter (`True` = HTTP success): the source catches the
  failure, so it only influences the emitted log lines.
-/

/-- `collections.deque(maxlen := m)` append: keep the last `m` elements of
`xs ++ [x]` (the oldest elements are evicted first).  For the reachable
states (`xs.length ≤ m`) at most one element is dropped, exactly as the
Python deque does. -/
def dequeAppend (m : ℕ) (xs : List α) (x : α) : List α :=
  let ys := xs ++ [x]
  ys.drop (ys.length - m)

/-- The last `m` elements of a list (a helper for reasoning about
`dequeAppend`). -/
def lastN (m : ℕ) (l : List α) : List α :=
  l.drop (l.length - m)

theorem dequeAppend_eq_lastN (m : ℕ) (xs : List α) (x : α) :
    dequeAppend m xs x = lastN m (xs ++ [x]) := rfl

theorem lastN_length_le (m : ℕ) (l : List α) : (lastN m l).length ≤ m := by
  simp only [lastN, List.length_drop]
  omega

theorem lastN_of_length_le (m : ℕ) (l : List α) (h : l.length ≤ m) :
    lastN m l = l := by
  simp only [lastN]
  have : l.length - m = 0 := by omega
  simp [this]

/-- Python truthiness of an optional string: `None` and `""` are falsy. -/
def pyTruthyStr : Option String → Bool
  | none => false
  | some s => s ≠ ""

section AlertManagerDef

/-- State of `AlertManager` (`watcher.py` lines 24–46): the configured
cooldown in seconds and the `last_alerts` dict, modelled as an association
list from alert type to the timestamp (in seconds) of the last fired alert. -/
structure AlertManager where
  cooldown_seconds : ℤ
  last_alerts : List (String × ℚ)
  deriving Repr, DecidableEq

/-- Insert-or-update for the `self.last_alerts[alert_type] = now` dict
assignment. -/
def alertsUpsert (k : String) (v : ℚ) : List (String × ℚ) → List (String × ℚ)
  | [] => [(k, v)]
  | (k', v') :: rest =>
      if k' = k then (k, v) :: rest else (k', v') :: alertsUpsert k v rest

/-- `AlertManager.should_alert` (lines 32–46).  `now` is the value of
`datetime.now()` at the call, in seconds.  Returns the boolean result and the
updated manager. -/
def AlertManager.should_alert (m : AlertManager) (now : ℚ) (alert_type : String) :
    Bool × AlertManager :=
  match (List.lookup alert_type m.last_alerts : Option ℚ) with
  | none =>
      (true, { m with last_alerts := alertsUpsert alert_type now m.last_alerts })
  | some last_time =>
      if now - last_time > (m.cooldown_seconds : ℚ) then
        (true, { m with last_alerts := alertsUpsert alert_type now m.last_alerts })
      else
        (false, m)

end AlertManagerDef

section PoolTrackerDef

/-- State of `PoolTracker` (`watcher.py` lines 48–73): the current pool (or
`None`) and the `last_seen_pools` deque of capacity 10. -/
structure PoolTracker where
  current_pool : Option String
  last_seen_pools : List String
  deriving Repr, DecidableEq

/-- The freshly constructed tracker (`PoolTracker.__init__`). -/
def PoolTracker.init : PoolTracker :=
  { current_pool := none, last_seen_pools := [] }

/-- `PoolTracker.update_pool` (lines 56–73).  Returns the previous pool iff
this call causes a genuine change, together with the updated tracker. -/
def PoolTracker.update_pool (t : PoolTracker) (pool : Option String) :
    Option String × PoolTracker :=
  match pool with
  | none => (none, t)
  | some p =>
      -- `if not pool` : the empty string is falsy in Python
      if p = "" then (none, t)
      else
        let previous_pool := t.current_pool
        if p = "blue" ∨ p = "green" then
          let t' : PoolTracker :=
            { current_pool := some p,
              last_seen_pools := dequeAppend 10 t.last_seen_pools p }
          -- `if previous_pool and previous_pool != pool`
          if pyTruthyStr previous_pool ∧ previous_pool ≠ some p then
            (previous_pool, t')
          else
            (none, t')
        else
          (none, t)

end PoolTrackerDef

section ErrorRateMonitorDef

/-- State of `ErrorRateMonitor` (`watcher.py` lines 75–112): configured window
capacity and threshold percent, plus the `requests` deque of status codes
(newest last). -/
structure ErrorRateMonitor where
  window_size : ℕ
  threshold_percent : ℚ
  requests : List ℤ
  deriving Repr, DecidableEq

/-- A freshly constructed monitor (`ErrorRateMonitor.__init__`). -/
def ErrorRateMonitor.init (window_size : ℕ) (threshold_percent : ℚ) :
    ErrorRateMonitor :=
  { window_size := window_size, threshold_percent := threshold_percent,
    requests := [] }

/-- `sum(1 for status in requests if status >= 500)`. -/
def errorCount (requests : List ℤ) : ℕ :=
  (requests.filter (fun status => 500 ≤ status)).length

/-- `ErrorRateMonitor.add_request` (lines 84–96).  Appends the status code to
the window and reports whether the error-rate threshold is exceeded. -/
def ErrorRateMonitor.add_request (m : ErrorRateMonitor) (status_code : ℤ) :
    Bool × ErrorRateMonitor :=
  let requests := dequeAppend m.window_size m.requests status_code
  let m' := { m with requests := requests }
  -- Need at least 50 requests before checking error rate
  if requests.length < 50 then
    (false, m')
  else
    let error_rate : ℚ := ((errorCount requests : ℚ) / (requests.length : ℚ)) * 100
    (decide (error_rate > m.threshold_percent), m')

/-- Round-half-to-even on `ℚ`, the rounding mode of Python's `round`. -/
def roundHalfEven (q : ℚ) : ℤ :=
  let f := ⌊q⌋
  let frac := q - (f : ℚ)
  if frac < 1 / 2 then f
  else if frac > 1 / 2 then f + 1
  else if f % 2 = 0 then f else f + 1

/-- Python `round(x, 2)` on the exact value. -/
def round2 (q : ℚ) : ℚ :=
  (roundHalfEven (q * 100) : ℚ) / 100

/-- Result record of `ErrorRateMonitor.get_current_stats`. -/
structure ErrorStats where
  total : ℕ
  errors : ℕ
  error_rate : ℚ
  deriving Repr, DecidableEq

/-- `ErrorRateMonitor.get_current_stats` (lines 98–112). -/
def ErrorRateMonitor.get_current_stats (m : ErrorRateMonitor) : ErrorStats :=
  if m.requests = [] then
    { total := 0, errors := 0, error_rate := 0 }
  else
    let error_count := errorCount m.requests
    let total_count := m.requests.length
    let error_rate : ℚ := ((error_count : ℚ) / (total_count : ℚ)) * 100
    { total := total_count, errors := error_count,
      error_rate := round2 error_rate }

end ErrorRateMonitorDef

section PyValDef

/-- A JSON-decoded Python value as it can appear in a log-entry field
(`json.loads` produces strings, ints, floats, booleans, `None`, and
containers; containers are summarized by `vother` since the watcher only
converts and lowercases scalar fields). -/
inductive PyVal where
  | vstr (s : String)
  | vint (n : ℤ)
  | vfloat (q : ℚ)
  | vbool (b : Bool)
  | vnull
  | vother
  deriving Repr, DecidableEq

/-- `str.lower()` (ASCII case mapping, which covers the pool names the
watcher compares against), written on the character list so it reduces. -/
def pyLower (s : String) : String :=
  ⟨s.data.map Char.toLower⟩

/-- `str.strip()` with no argument: remove leading and trailing whitespace,
written on the character list so it reduces. -/
def pyStrip (s : String) : String :=
  ⟨((s.data.dropWhile Char.isWhitespace).reverse.dropWhile
      Char.isWhitespace).reverse⟩

/-- Truncation toward zero, the behaviour of Python `int(...)` on a float. -/
def pyTrunc (q : ℚ) : ℤ :=
  if 0 ≤ q then ⌊q⌋ else -⌊-q⌋

/-- The digits-to-number part of Python `int(str)`. -/
def digitsToNat (cs : List Char) : Option ℕ :=
  match cs with
  | [] => none
  | _ =>
      if cs.all Char.isDigit then
        some (cs.foldl (fun n c => 10 * n + (c.toNat - 48)) 0)
      else
        none

/-- Python `int(s)` for a string: strip whitespace, then an optional sign
followed by at least one digit; anything else raises `ValueError`
(= `none`). -/
def pyStrToInt (s : String) : Option ℤ :=
  match (pyStrip s).data with
  | '-' :: rest => (digitsToNat rest).map (fun n => -(n : ℤ))
  | '+' :: rest => (digitsToNat rest).map (fun n => (n : ℤ))
  | cs => (digitsToNat cs).map (fun n => (n : ℤ))

/-- Python `int(v)` on a decoded JSON value: succeeds on ints, booleans,
floats and integer-looking strings; raises (`none`) on `None`, containers
and non-numeric strings. -/
def pyToInt : PyVal → Option ℤ
  | .vint n => some n
  | .vbool b => some (if b then 1 else 0)
  | .vfloat q => some (pyTrunc q)
  | .vstr s => pyStrToInt s
  | .vnull => none
  | .vother => none

/-- `v.lower().strip()`: defined only on strings; any other value raises
`AttributeError` (= `none`). -/
def pyLowerStrip : PyVal → Option String
  | .vstr s => some (pyStrip (pyLower s))
  | _ => none

/-- The normalisation `process_log_entry` applies to the raw pool string
(line 257): lowercase then strip. -/
def pyNormalize (s : String) : String :=
  pyStrip (pyLower s)

end PyValDef

section LogWatcherDef

/-- A decoded log entry as seen by `process_log_entry`: each expected field
is either absent from the dict or holds some decoded value. -/
structure Entry where
  status : Option PyVal
  pool : Option PyVal
  upstream_status : Option PyVal
  deriving Repr, DecidableEq

/-- The field extraction of `process_log_entry` lines 256–258:
`int(entry.get('status', 0))` then `entry.get('pool', '').lower().strip()`.
`none` means an exception escaped to the `except` handler on line 278.
(The `upstream_status` extraction applies no conversion and cannot raise.) -/
def extractFields (e : Entry) : Option (ℤ × String) := do
  let status_code ← pyToInt (e.status.getD (PyVal.vint 0))
  let pool ← pyLowerStrip (e.pool.getD (PyVal.vstr ""))
  return (status_code, pool)

/-- An alert decision produced by the watcher (the spec's `AlertIntent`):
the payload handed to logging/notification when a gate fires. -/
inductive AlertIntent where
  | errorRate (stats : ErrorStats)
  | failover (previous_pool current_pool : String)
  deriving Repr, DecidableEq

/-- The alert-kind keys used by `process_log_entry`. -/
def kindErrorRate : String := "error_rate"

/-- The alert-kind key for failover alerts. -/
def kindFailover : String := "failover"

/-- `SlackNotifier._send_message` (lines 207–218): the HTTP POST either
succeeds or raises a `RequestException`; both outcomes are caught inside the
method, whose only observable effect is a log line. `ok` is the outcome of
the external POST. -/
def slackSendLog (ok : Bool) : List String :=
  if ok then ["INFO: Slack alert sent successfully"]
  else ["ERROR: Failed to send Slack alert"]

/-- State of `LogWatcher` (lines 220–241): the three trackers plus whether a
Slack webhook was configured. -/
structure LogWatcher where
  alert_manager : AlertManager
  pool_tracker : PoolTracker
  error_monitor : ErrorRateMonitor
  has_slack_notifier : Bool
  deriving Repr, DecidableEq

/-- `LogWatcher.__init__` (lines 223–241) for a given configuration. -/
def LogWatcher.init (threshold : ℚ) (window_size : ℕ) (cooldown : ℤ)
    (has_slack : Bool) : LogWatcher :=
  { alert_manager := { cooldown_seconds := cooldown, last_alerts := [] },
    pool_tracker := PoolTracker.init,
    error_monitor := ErrorRateMonitor.init window_size threshold,
    has_slack_notifier := has_slack }

/-- Branch A of `process_log_entry` (lines 260–267): track error rates.
`now` is the wall-clock time (seconds); `dispatch_ok` the outcome of an
outbound Slack POST, should one be attempted. -/
def LogWatcher.branchA (w : LogWatcher) (now : ℚ) (dispatch_ok : Bool)
    (status_code : ℤ) : LogWatcher × List AlertIntent × List String :=
  if status_code > 0 then
    let r := w.error_monitor.add_request status_code
    let w1 := { w with error_monitor := r.2 }
    if r.1 then
      let g := w1.alert_manager.should_alert now kindErrorRate
      let w2 := { w1 with alert_manager := g.2 }
      if g.1 then
        (w2, [AlertIntent.errorRate r.2.get_current_stats],
          ["WARNING: High error rate detected"] ++
            (if w2.has_slack_notifier then slackSendLog dispatch_ok else []))
      else (w2, [], [])
    else (w1, [], [])
  else (w, [], [])

/-- Branch B of `process_log_entry` (lines 269–276): track pool changes
(failovers). -/
def LogWatcher.branchB (w : LogWatcher) (now : ℚ) (dispatch_ok : Bool)
    (pool : String) : LogWatcher × List AlertIntent × List String :=
  -- `if pool:` — the normalised pool string is truthy iff non-empty
  if pool ≠ "" then
    let r := w.pool_tracker.update_pool (some pool)
    let w1 := { w with pool_tracker := r.2 }
    -- `if previous_pool:`
    match r.1 with
    | none => (w1, [], [])
    | some prev =>
        if prev = "" then (w1, [], [])
        else
          let g := w1.alert_manager.should_alert now kindFailover
          let w2 := { w1 with alert_manager := g.2 }
          if g.1 then
            (w2, [AlertIntent.failover prev pool],
              ["WARNING: Failover detected"] ++
                (if w2.has_slack_notifier then slackSendLog dispatch_ok else []))
          else (w2, [], [])
  else (w, [], [])

/-- The body of `process_log_entry` after successful field extraction
(lines 260–276): branch A then branch B, accumulating intents and logs. -/
def LogWatcher.processFields (w : LogWatcher) (now : ℚ) (dispatch_ok : Bool)
    (status_code : ℤ) (pool : String) :
    LogWatcher × List AlertIntent × List String :=
  let a := w.branchA now dispatch_ok status_code
  let b := a.1.branchB now dispatch_ok pool
  (b.1, a.2.1 ++ b.2.1, a.2.2 ++ b.2.2)

/-- `LogWatcher.process_log_entry` (lines 252–279).  `now` is the wall-clock
time (seconds) at which the entry is processed; `dispatch_ok` is the outcome
of any outbound Slack POST attempted while processing it.  Returns the new
watcher state, the alert intents fired, and the log lines emitted. -/
def LogWatcher.process_log_entry (w : LogWatcher) (now : ℚ) (dispatch_ok : Bool)
    (e : Entry) : LogWatcher × List AlertIntent × List String :=
  match extractFields e with
  | none =>
      -- `except Exception` (lines 278–279): the event is dropped and logged
      (w, [], ["ERROR: Error processing log entry"])
  | some (status_code, pool) => w.processFields now dispatch_ok status_code pool

/-- Modelled from the spec (§7, *FieldExtractionError*): the spec claims a
decoded event with missing OR malformed fields is "recovered locally with
defaulting (`statusCode=0`, `pool=absent`), processing continues with
reduced signal".  Under that reading field extraction never fails: each
field that cannot be extracted is replaced by its default. -/
def extractFieldsDefaulting (e : Entry) : ℤ × String :=
  ((pyToInt (e.status.getD (PyVal.vint 0))).getD 0,
   (pyLowerStrip (e.pool.getD (PyVal.vstr ""))).getD "")

/-- Modelled from the spec (§7, *FieldExtractionError*): event processing as
the spec's defaulting reading describes it — never drop an event, always
continue into the two decision branches with the defaulted fields. -/
def LogWatcher.process_log_entry_defaulting (w : LogWatcher) (now : ℚ)
    (dispatch_ok : Bool) (e : Entry) :
    LogWatcher × List AlertIntent × List String :=
  let f := extractFieldsDefaulting e
  w.processFields now dispatch_ok f.1 f.2

/-- `True` iff the list contains an error-rate alert intent. -/
def hasErrorRateIntent (l : List AlertIntent) : Bool :=
  l.any (fun i => match i with
    | .errorRate _ => true
    | .failover _ _ => false)

/-- Run the watcher over a finite stream of events, each paired with its
processing time and the outcome of any Slack POST it triggers; collect all
alert intents in order (the per-event loop of `tail_log_file`,
lines 291–298, restricted to already-decoded entries). -/
def runWatcher (w : LogWatcher) (events : List (ℚ × Bool × Entry)) :
    LogWatcher × List AlertIntent :=
  events.foldl
    (fun acc ev =>
      let r := acc.1.process_log_entry ev.1 ev.2.1 ev.2.2
      (r.1, acc.2 ++ r.2.1))
    (w, [])

/-- Run `add_request` over a list of status codes, final state only
(the repeated-ingestion view of the monitor). -/
def runMonitor (m : ErrorRateMonitor) (cs : List ℤ) : ErrorRateMonitor :=
  cs.foldl (fun m c => (m.add_request c).2) m

end LogWatcherDef

/-! ## Basic lemmas about the embedded operations -/

theorem lastN_append (W : ℕ) (l₁ l₂ : List α) :
    lastN W l₁ ++ l₂ = (l₁ ++ l₂).drop (l₁.length - W) := by
  unfold lastN
  rw [List.drop_append_eq_append_drop]
  have h : l₁.length - W - l₁.length = 0 := by omega
  rw [h, List.drop_zero]

theorem lastN_lastN_append (W : ℕ) (l₁ l₂ : List α) :
    lastN W (lastN W l₁ ++ l₂) = lastN W (l₁ ++ l₂) := by
  rw [lastN_append]
  unfold lastN
  rw [List.drop_drop]
  congr 1
  simp only [List.length_drop, List.length_append]
  omega

theorem add_request_snd (m : ErrorRateMonitor) (c : ℤ) :
    (m.add_request c).2 =
      { m with requests := dequeAppend m.window_size m.requests c } := by
  simp only [ErrorRateMonitor.add_request]
  split <;> rfl

theorem add_request_fst (m : ErrorRateMonitor) (c : ℤ) :
    (m.add_request c).1 =
      if (dequeAppend m.window_size m.requests c).length < 50 then false
      else
        decide (((errorCount (dequeAppend m.window_size m.requests c) : ℚ) /
            ((dequeAppend m.window_size m.requests c).length : ℚ)) * 100 >
          m.threshold_percent) := by
  simp only [ErrorRateMonitor.add_request]
  split <;> rfl

/-! ## Claim C4 -/

/-- Claim C4 — every `ErrorRateMonitor.add_request` call made while the
window holds fewer than 50 entries (after appending the new entry) returns
`false`, for every status code and every configured threshold. -/
theorem addRequest_below_floor_false (m : ErrorRateMonitor) (c : ℤ)
    (h : (dequeAppend m.window_size m.requests c).length < 50) :
    (m.add_request c).1 = false := by
  rw [add_request_fst, if_pos h]

/-- Witness for C4: the very first request appended to a fresh default
monitor (window capacity 200) cannot report a breach. -/
theorem addRequest_below_floor_false_witness :
    (ErrorRateMonitor.add_request ⟨200, 2, []⟩ 503).1 = false :=
  addRequest_below_floor_false ⟨200, 2, []⟩ 503 (by decide)

/-! ## Claim C2 -/

/-- Claim C2 — whenever the window holds at least 50 entries after the
append, `add_request` returns `true` iff
`count(code ≥ 500) / len(window) * 100` strictly exceeds the configured
threshold percent. -/
theorem addRequest_breach_iff (m : ErrorRateMonitor) (c : ℤ)
    (h : 50 ≤ ((m.add_request c).2.requests).length) :
    ((m.add_request c).1 = true ↔
      m.threshold_percent <
        ((errorCount ((m.add_request c).2.requests) : ℚ) /
          (((m.add_request c).2.requests).length : ℚ)) * 100) := by
  have h' : 50 ≤ (dequeAppend m.window_size m.requests c).length := by
    rw [add_request_snd] at h; exact h
  rw [add_request_snd]
  dsimp only
  rw [add_request_fst, if_neg (by omega), decide_eq_true_eq]

/-- Witness for C2: a window of exactly 100 entries of which 3 are ≥ 500,
with threshold 2.0, reports a breach. -/
theorem addRequest_breach_iff_witness :
    50 ≤ ((ErrorRateMonitor.add_request
        ⟨200, 2, List.replicate 97 200 ++ [503, 503]⟩ 503).2.requests).length
    ∧ (ErrorRateMonitor.add_request
        ⟨200, 2, List.replicate 97 200 ++ [503, 503]⟩ 503).1 = true :=
  ⟨by decide,
    (addRequest_breach_iff ⟨200, 2, List.replicate 97 200 ++ [503, 503]⟩ 503
      (by decide)).mpr (by
        rw [add_request_snd]
        dsimp only
        have h1 :
            errorCount (dequeAppend 200 (List.replicate 97 200 ++ [503, 503]) 503) = 3 := by
          decide
        have h2 :
            (dequeAppend 200 ((List.replicate 97 200 ++ [503, 503] : List ℤ))
              503).length = 100 := by
          decide
        rw [h1, h2]
        norm_num)⟩

/-! ## Claim C8 -/

/-- Claim C8 — `update_pool` on an absent pool, or on any string that is not
a case-insensitive trimmed match of the two valid identities, returns absent
and leaves the tracker (current pool and recent pools) unchanged. -/
theorem update_pool_invalid_noop (t : PoolTracker) (i : Option String)
    (h : i = none ∨
      ∃ p, i = some p ∧ pyNormalize p ≠ "blue" ∧ pyNormalize p ≠ "green") :
    t.update_pool i = (none, t) := by
  rcases h with rfl | ⟨p, rfl, hb, hg⟩
  · rfl
  · have hpb : p ≠ "blue" := by rintro rfl; exact hb (by decide)
    have hpg : p ≠ "green" := by rintro rfl; exact hg (by decide)
    by_cases hpe : p = "" <;>
      simp [PoolTracker.update_pool, hpe, hpb, hpg]

/-- Witness for C8: the string `"Yellow "` (not a case-insensitive trimmed
match of either identity) leaves a tracker currently on blue untouched. -/
theorem update_pool_invalid_noop_witness :
    PoolTracker.update_pool ⟨some ("blue"), ["blue"]⟩ (some ("Yellow ")) =
      (none, ⟨some ("blue"), ["blue"]⟩) :=
  update_pool_invalid_noop ⟨some ("blue"), ["blue"]⟩ (some ("Yellow "))
    (Or.inr ⟨"Yellow ", rfl, by decide, by decide⟩)

/-! ## Claim C1 -/

/-- Claim C1 — for a valid pool identity, `update_pool` returns a present
previous pool iff the current pool was present before the call and differs
from the new identity (so the first accepted identity and a repeat of the
held identity both return absent); moreover the returned value is exactly
the previous current pool, and afterwards the current pool is the new
identity (which keeps the side condition `current_pool ≠ some ""` invariant
along every sequence of calls starting from the fresh tracker). -/
theorem update_pool_valid_change (t : PoolTracker) (p : String)
    (hp : p = "blue" ∨ p = "green") (ht : t.current_pool ≠ some "") :
    ((t.update_pool (some p)).1.isSome ↔
        t.current_pool.isSome ∧ t.current_pool ≠ some p)
    ∧ ((t.update_pool (some p)).1.isSome →
        (t.update_pool (some p)).1 = t.current_pool)
    ∧ (t.update_pool (some p)).2.current_pool = some p := by
  have hpe : p ≠ "" := by rcases hp with rfl | rfl <;> decide
  rcases t with ⟨cp, pools⟩
  rcases cp with _ | q
  · simp [PoolTracker.update_pool, hpe, hp, pyTruthyStr]
  · have hq : q ≠ "" := by simpa using ht
    by_cases hqp : q = p
    · subst hqp
      simp [PoolTracker.update_pool, hpe, hp, pyTruthyStr]
    · simp [PoolTracker.update_pool, hpe, hp, pyTruthyStr, hq, hqp]

/-- Witness for C1: updating a tracker currently on blue with green returns
the previous pool blue. -/
theorem update_pool_valid_change_witness :
    (PoolTracker.update_pool ⟨some ("blue"), ["blue"]⟩ (some ("green"))).1 =
      some ("blue") := by
  have h := update_pool_valid_change ⟨some ("blue"), ["blue"]⟩ "green"
    (Or.inr rfl) (by decide)
  exact h.2.1 (h.1.mpr (by decide))

/-! ## Claim C9 -/

/-- Claim C9 — processing an event with a missing status field and pool
field `"yellow"` completes without error, leaves the whole watcher state
(error window, pool tracker, alert manager) exactly unchanged, and produces
no alert intent of either kind (and not even a log line). -/
theorem process_yellow_missing_status_noop (w : LogWatcher) (now : ℚ)
    (ok : Bool) (u : Option PyVal) :
    w.process_log_entry now ok
        { status := none, pool := some (PyVal.vstr "yellow"),
          upstream_status := u } =
      (w, [], []) := rfl

/-! ## Claim C5 -/

theorem runMonitor_eq (cs : List ℤ) (m : ErrorRateMonitor)
    (h : m.requests.length ≤ m.window_size) :
    runMonitor m cs =
      { m with requests := lastN m.window_size (m.requests ++ cs) } := by
  induction cs generalizing m with
  | nil =>
      have : lastN m.window_size (m.requests ++ []) = m.requests := by
        rw [List.append_nil]
        exact lastN_of_length_le _ _ h
      rw [runMonitor, List.foldl_nil, this]
  | cons c cs ih =>
      rw [runMonitor, List.foldl_cons, ← runMonitor, add_request_snd,
        dequeAppend_eq_lastN]
      rw [ih _ (by dsimp only; exact lastN_length_le _ _)]
      dsimp only
      rw [lastN_lastN_append, List.append_assoc, List.singleton_append]

/-- Claim C5 — `len(window) ≤ W` is preserved by every `add_request` call,
and eviction is oldest-first: after appending `W + 1` entries to a fresh
monitor, the window is exactly the last `W` entries (the first appended
entry is gone), has length `W`, and `get_current_stats` is computed from
those remaining entries only. -/
theorem window_invariant_and_eviction :
    (∀ (m : ErrorRateMonitor) (c : ℤ), m.requests.length ≤ m.window_size →
        ((m.add_request c).2).requests.length ≤ m.window_size)
    ∧ (∀ (W : ℕ) (θ : ℚ) (cs : List ℤ), cs.length = W + 1 →
        (runMonitor (ErrorRateMonitor.init W θ) cs).requests = cs.tail
        ∧ ((runMonitor (ErrorRateMonitor.init W θ) cs).requests).length = W
        ∧ (runMonitor (ErrorRateMonitor.init W θ) cs).get_current_stats =
            ErrorRateMonitor.get_current_stats ⟨W, θ, cs.tail⟩) := by
  constructor
  · intro m c _h
    rw [add_request_snd]
    dsimp only
    rw [dequeAppend_eq_lastN]
    exact lastN_length_le _ _
  · intro W θ cs hlen
    have hstruct : runMonitor (ErrorRateMonitor.init W θ) cs =
        (⟨W, θ, cs.tail⟩ : ErrorRateMonitor) := by
      rw [runMonitor_eq cs (ErrorRateMonitor.init W θ) (by simp [ErrorRateMonitor.init])]
      simp only [ErrorRateMonitor.init, List.nil_append]
      congr 1
      unfold lastN
      rw [hlen]
      have h1 : W + 1 - W = 1 := by omega
      rw [h1, List.drop_one]
    refine ⟨by rw [hstruct], ?_, by rw [hstruct]⟩
    rw [hstruct]
    dsimp only
    rw [List.length_tail, hlen]
    omega

/-- Witness for C5: appending three entries to a fresh capacity-2 monitor
leaves exactly the last two, and stats are computed from them. -/
theorem window_invariant_and_eviction_witness :
    (ErrorRateMonitor.add_request ⟨2, 2, ([200, 503] : List ℤ)⟩ 200).2.requests.length ≤ 2
    ∧ (runMonitor (ErrorRateMonitor.init 2 2) [500, 200, 503]).requests = [200, 503]
    ∧ (runMonitor (ErrorRateMonitor.init 2 2) [500, 200, 503]).get_current_stats =
        ErrorRateMonitor.get_current_stats ⟨2, 2, [200, 503]⟩ :=
  ⟨window_invariant_and_eviction.1 ⟨2, 2, ([200, 503] : List ℤ)⟩ 200 (by decide),
    (window_invariant_and_eviction.2 2 2 [500, 200, 503] (by decide)).1,
    (window_invariant_and_eviction.2 2 2 [500, 200, 503] (by decide)).2.2⟩

/-! ## Claim C3 -/

theorem lookup_alertsUpsert_self (k : String) (v : ℚ) (l : List (String × ℚ)) :
    List.lookup k (alertsUpsert k v l) = some v := by
  induction l with
  | nil => simp [alertsUpsert, List.lookup]
  | cons a l ih =>
      rcases a with ⟨k', v'⟩
      by_cases h : k' = k
      · subst h
        simp [alertsUpsert, List.lookup]
      · have hb : (k == k') = false := beq_eq_false_iff_ne.mpr (Ne.symm h)
        simp [alertsUpsert, h, List.lookup, hb, ih]

theorem lookup_alertsUpsert_ne (k k' : String) (v : ℚ) (l : List (String × ℚ))
    (h : k ≠ k') :
    List.lookup k (alertsUpsert k' v l) = List.lookup k l := by
  have hb : (k == k') = false := beq_eq_false_iff_ne.mpr h
  induction l with
  | nil => simp [alertsUpsert, List.lookup, hb]
  | cons a l ih =>
      rcases a with ⟨k'', v''⟩
      by_cases h2 : k'' = k'
      · subst h2
        simp [alertsUpsert, List.lookup, hb]
      · cases hk : (k == k'') <;>
          simp [alertsUpsert, h2, List.lookup, hk, ih]

theorem should_alert_of_lookup_none (m : AlertManager) (now : ℚ) (k : String)
    (h : List.lookup k m.last_alerts = none) :
    m.should_alert now k =
      (true, { m with last_alerts := alertsUpsert k now m.last_alerts }) := by
  unfold AlertManager.should_alert
  rw [h]

theorem should_alert_of_lookup_some (m : AlertManager) (now t : ℚ) (k : String)
    (h : List.lookup k m.last_alerts = some t) :
    m.should_alert now k =
      if now - t > (m.cooldown_seconds : ℚ) then
        (true, { m with last_alerts := alertsUpsert k now m.last_alerts })
      else (false, m) := by
  unfold AlertManager.should_alert
  rw [h]

/-- Claim C3 — the first-ever `should_alert` call for a kind returns `true`
and records the time; a subsequent call returns `true` iff strictly more
than `cooldown_seconds` elapsed since the recorded time, refreshing the
record exactly when it returns `true`; hence (for a nonnegative cooldown)
two calls in immediate succession give `true` then `false`, and a later
call strictly beyond the cooldown gives `true` again. -/
theorem should_alert_cooldown_spec :
    (∀ (m : AlertManager) (now : ℚ) (k : String),
        List.lookup k m.last_alerts = none →
          (m.should_alert now k).1 = true
          ∧ List.lookup k ((m.should_alert now k).2.last_alerts) = some now)
    ∧ (∀ (m : AlertManager) (now t : ℚ) (k : String),
        List.lookup k m.last_alerts = some t →
          ((m.should_alert now k).1 = true ↔ (m.cooldown_seconds : ℚ) < now - t)
          ∧ ((m.should_alert now k).1 = true →
              List.lookup k ((m.should_alert now k).2.last_alerts) = some now)
          ∧ ((m.should_alert now k).1 = false → (m.should_alert now k).2 = m))
    ∧ (∀ (m : AlertManager) (now now' : ℚ) (k : String),
        0 ≤ m.cooldown_seconds →
        List.lookup k m.last_alerts = none →
          (m.should_alert now k).1 = true
          ∧ (((m.should_alert now k).2).should_alert now k).1 = false
          ∧ ((m.cooldown_seconds : ℚ) < now' - now →
              (((((m.should_alert now k).2).should_alert now k).2).should_alert
                  now' k).1 = true)) := by
  refine ⟨?_, ?_, ?_⟩
  · intro m now k h
    rw [should_alert_of_lookup_none m now k h]
    exact ⟨rfl, lookup_alertsUpsert_self k now m.last_alerts⟩
  · intro m now t k h
    rw [should_alert_of_lookup_some m now t k h]
    by_cases hc : now - t > (m.cooldown_seconds : ℚ)
    · rw [if_pos hc]
      exact ⟨by simp [hc], fun _ => lookup_alertsUpsert_self k now m.last_alerts,
        by simp⟩
    · rw [if_neg hc]
      exact ⟨by simp [hc], by simp, fun _ => rfl⟩
  · intro m now now' k hc h
    have h1 := should_alert_of_lookup_none m now k h
    have hl : List.lookup k ((m.should_alert now k).2).last_alerts = some now := by
      rw [h1]
      exact lookup_alertsUpsert_self k now m.last_alerts
    have hcs : ((m.should_alert now k).2).cooldown_seconds = m.cooldown_seconds := by
      rw [h1]
    have h2 := should_alert_of_lookup_some ((m.should_alert now k).2) now now k hl
    have hneg : ¬(now - now > ((((m.should_alert now k).2).cooldown_seconds : ℤ) : ℚ)) := by
      rw [hcs]
      have hc' : (0 : ℚ) ≤ (m.cooldown_seconds : ℚ) := by exact_mod_cast hc
      simp only [sub_self, gt_iff_lt, not_lt]
      exact hc'
    refine ⟨by rw [h1], by rw [h2, if_neg hneg], ?_⟩
    intro hlate
    have h3 : ((((m.should_alert now k).2).should_alert now k).2) =
        (m.should_alert now k).2 := by
      rw [h2, if_neg hneg]
    rw [h3, should_alert_of_lookup_some ((m.should_alert now k).2) now' now k hl,
      if_pos (by rw [hcs]; exact hlate)]

/-- Witness for C3: with cooldown 300 s and a fresh gate, two calls at time
0 give `true` then `false`, and a third call at time 301 gives `true`. -/
theorem should_alert_cooldown_spec_witness :
    (AlertManager.should_alert ⟨300, []⟩ 0 kindFailover).1 = true
    ∧ ((AlertManager.should_alert ⟨300, []⟩ 0 kindFailover).2.should_alert 0
        kindFailover).1 = false
    ∧ ((((AlertManager.should_alert ⟨300, []⟩ 0 kindFailover).2.should_alert 0
          kindFailover).2).should_alert 301 kindFailover).1 = true := by
  have h := should_alert_cooldown_spec.2.2 ⟨300, []⟩ 0 301 kindFailover
    (by decide) rfl
  exact ⟨h.1, h.2.1, h.2.2 (by norm_num)⟩

/-! ## Claim C6 -/

/-- Counterexample to C6 as stated: for the event
`{status: "abc", pool: "green"}` (malformed status, well-formed pool) the
code catches the `ValueError` and drops the whole event — the pool tracker
is NOT updated — whereas the claimed defaulting recovery
(`process_log_entry_defaulting`) would continue with `statusCode = 0` and
update the pool tracker to green.  The two observable states differ. -/
theorem malformed_field_not_defaulted :
    ((LogWatcher.init 2 200 300 true).process_log_entry 0 true
        { status := some (PyVal.vstr "abc"), pool := some (PyVal.vstr "green"),
          upstream_status := none }).1.pool_tracker.current_pool = none
    ∧ ((LogWatcher.init 2 200 300 true).process_log_entry_defaulting 0 true
        { status := some (PyVal.vstr "abc"), pool := some (PyVal.vstr "green"),
          upstream_status := none }).1.pool_tracker.current_pool = some ("green")
    ∧ ((LogWatcher.init 2 200 300 true).process_log_entry 0 true
        { status := some (PyVal.vstr "abc"), pool := some (PyVal.vstr "green"),
          upstream_status := none }).1 ≠
      ((LogWatcher.init 2 200 300 true).process_log_entry_defaulting 0 true
        { status := some (PyVal.vstr "abc"), pool := some (PyVal.vstr "green"),
          upstream_status := none }).1 :=
  ⟨rfl, rfl, by decide⟩

/-- Claim C6 (amended) — an event whose expected fields are merely missing
is recovered by defaulting (`status` defaults to `0`, `pool` to the empty
string, i.e. absent) and processing continues on that event with the reduced
signal; but an event with a present malformed field (one whose extraction
raises: a non-integer-parsable status or a non-string pool) is caught by the
per-event handler and dropped whole — state unchanged, no intents, only an
error log — and no event ever raises out of the per-event processing step. -/
theorem extraction_error_drops_event :
    (∀ (w : LogWatcher) (now : ℚ) (ok : Bool) (e : Entry),
        extractFields e = none →
          w.process_log_entry now ok e =
            (w, [], ["ERROR: Error processing log entry"]))
    ∧ (∀ (w : LogWatcher) (now : ℚ) (ok : Bool) (e : Entry),
        e.status = none →
          w.process_log_entry now ok e =
            w.process_log_entry now ok { e with status := some (PyVal.vint 0) })
    ∧ (∀ (w : LogWatcher) (now : ℚ) (ok : Bool) (e : Entry),
        e.pool = none →
          w.process_log_entry now ok e =
            w.process_log_entry now ok { e with pool := some (PyVal.vstr "") }) := by
  refine ⟨?_, ?_, ?_⟩
  · intro w now ok e h
    unfold LogWatcher.process_log_entry
    rw [h]
  · intro w now ok e h
    rcases e with ⟨st, pl, u⟩
    obtain rfl : st = none := h
    rfl
  · intro w now ok e h
    rcases e with ⟨st, pl, u⟩
    obtain rfl : pl = none := h
    rfl

/-- Witness for the amended C6: a malformed-status event is dropped whole; a
missing status behaves as status `0`; a missing pool behaves as pool `""`. -/
theorem extraction_error_drops_event_witness :
    ((LogWatcher.init 2 200 300 true).process_log_entry 0 true
        { status := some (PyVal.vstr "abc"), pool := some (PyVal.vstr "green"),
          upstream_status := none }) =
      (LogWatcher.init 2 200 300 true, [], ["ERROR: Error processing log entry"])
    ∧ ((LogWatcher.init 2 200 300 true).process_log_entry 0 true
        { status := none, pool := some (PyVal.vstr "blue"),
          upstream_status := none }) =
      ((LogWatcher.init 2 200 300 true).process_log_entry 0 true
        { status := some (PyVal.vint 0), pool := some (PyVal.vstr "blue"),
          upstream_status := none })
    ∧ ((LogWatcher.init 2 200 300 true).process_log_entry 0 true
        { status := some (PyVal.vint 200), pool := none,
          upstream_status := none }) =
      ((LogWatcher.init 2 200 300 true).process_log_entry 0 true
        { status := some (PyVal.vint 200), pool := some (PyVal.vstr ""),
          upstream_status := none }) :=
  ⟨extraction_error_drops_event.1 (LogWatcher.init 2 200 300 true) 0 true
      { status := some (PyVal.vstr "abc"), pool := some (PyVal.vstr "green"),
        upstream_status := none } (by decide),
    extraction_error_drops_event.2.1 (LogWatcher.init 2 200 300 true) 0 true
      { status := none, pool := some (PyVal.vstr "blue"),
        upstream_status := none } rfl,
    extraction_error_drops_event.2.2 (LogWatcher.init 2 200 300 true) 0 true
      { status := some (PyVal.vint 200), pool := none,
        upstream_status := none } rfl⟩

/-! ## Structural lemmas about the two decision branches -/

theorem addRequest_false_of_small (m : ErrorRateMonitor) (c : ℤ)
    (h : m.window_size < 50) : (m.add_request c).1 = false := by
  rw [add_request_fst, if_pos]
  rw [dequeAppend_eq_lastN]
  have := lastN_length_le m.window_size (m.requests ++ [c])
  omega

theorem branchA_error_monitor (w : LogWatcher) (now : ℚ) (ok : Bool) (sc : ℤ) :
    (w.branchA now ok sc).1.error_monitor =
      if sc > 0 then (w.error_monitor.add_request sc).2 else w.error_monitor := by
  simp only [LogWatcher.branchA]
  split <;> try rfl
  split <;> try rfl
  split <;> rfl

theorem branchB_error_monitor (w : LogWatcher) (now : ℚ) (ok : Bool) (p : String) :
    (w.branchB now ok p).1.error_monitor = w.error_monitor := by
  simp only [LogWatcher.branchB]
  split <;> try rfl
  split <;> try rfl
  split <;> try rfl
  split <;> rfl

theorem branchA_intents_empty_of_small (w : LogWatcher) (now : ℚ) (ok : Bool)
    (sc : ℤ) (h : w.error_monitor.window_size < 50) :
    (w.branchA now ok sc).2.1 = [] := by
  simp only [LogWatcher.branchA]
  split <;> try rfl
  simp [addRequest_false_of_small w.error_monitor sc h]

theorem branchB_no_errorRate (w : LogWatcher) (now : ℚ) (ok : Bool) (p : String) :
    hasErrorRateIntent (w.branchB now ok p).2.1 = false := by
  simp only [LogWatcher.branchB]
  split <;> try rfl
  split <;> try rfl
  split <;> try rfl
  split <;> rfl

theorem process_window_size (w : LogWatcher) (now : ℚ) (ok : Bool) (e : Entry) :
    (w.process_log_entry now ok e).1.error_monitor.window_size =
      w.error_monitor.window_size := by
  unfold LogWatcher.process_log_entry
  cases hx : extractFields e with
  | none => rfl
  | some sp =>
      rcases sp with ⟨sc, p⟩
      simp only [LogWatcher.processFields]
      rw [branchB_error_monitor, branchA_error_monitor]
      split
      · rw [add_request_snd]
      · rfl

theorem process_no_errorRate_of_small (w : LogWatcher) (now : ℚ) (ok : Bool)
    (e : Entry) (h : w.error_monitor.window_size < 50) :
    hasErrorRateIntent (w.process_log_entry now ok e).2.1 = false := by
  unfold LogWatcher.process_log_entry
  cases hx : extractFields e with
  | none => rfl
  | some sp =>
      rcases sp with ⟨sc, p⟩
      simp only [LogWatcher.processFields]
      rw [branchA_intents_empty_of_small w now ok sc h, List.nil_append]
      exact branchB_no_errorRate _ now ok p

theorem hasErrorRateIntent_append (l₁ l₂ : List AlertIntent) :
    hasErrorRateIntent (l₁ ++ l₂) =
      (hasErrorRateIntent l₁ || hasErrorRateIntent l₂) := by
  unfold hasErrorRateIntent
  exact List.any_append

theorem runWatcher_no_errorRate_aux (events : List (ℚ × Bool × Entry)) :
    ∀ (w : LogWatcher) (acc : List AlertIntent),
      w.error_monitor.window_size < 50 →
      hasErrorRateIntent acc = false →
      hasErrorRateIntent
        (events.foldl
          (fun acc ev =>
            let r := acc.1.process_log_entry ev.1 ev.2.1 ev.2.2
            (r.1, acc.2 ++ r.2.1))
          (w, acc)).2 = false := by
  induction events with
  | nil => intro w acc _ ha; exact ha
  | cons ev events ih =>
      intro w acc hw ha
      rw [List.foldl_cons]
      refine ih _ _ ?_ ?_
      · rw [process_window_size]; exact hw
      · rw [hasErrorRateIntent_append, ha,
          process_no_errorRate_of_small w ev.1 ev.2.1 ev.2.2 hw]
        rfl

theorem should_alert_cooldown_preserved (m : AlertManager) (now : ℚ) (k : String) :
    ((m.should_alert now k).2).cooldown_seconds = m.cooldown_seconds := by
  rcases hl : List.lookup k m.last_alerts with _ | t
  · rw [should_alert_of_lookup_none m now k hl]
  · rw [should_alert_of_lookup_some m now t k hl]
    split <;> rfl

theorem should_alert_true_lookup (m : AlertManager) (now : ℚ) (k : String)
    (h : (m.should_alert now k).1 = true) :
    List.lookup k ((m.should_alert now k).2).last_alerts = some now := by
  rcases hl : List.lookup k m.last_alerts with _ | t
  · rw [should_alert_of_lookup_none m now k hl]
    exact lookup_alertsUpsert_self k now m.last_alerts
  · rw [should_alert_of_lookup_some m now t k hl] at h ⊢
    by_cases hc : now - t > (m.cooldown_seconds : ℚ)
    · rw [if_pos hc]
      exact lookup_alertsUpsert_self k now m.last_alerts
    · rw [if_neg hc] at h
      simp at h

theorem should_alert_lookup_other (m : AlertManager) (now : ℚ) (k k' : String)
    (hk : k ≠ k') :
    List.lookup k ((m.should_alert now k').2).last_alerts =
      List.lookup k m.last_alerts := by
  rcases hl : List.lookup k' m.last_alerts with _ | t
  · rw [should_alert_of_lookup_none m now k' hl]
    exact lookup_alertsUpsert_ne k k' now m.last_alerts hk
  · rw [should_alert_of_lookup_some m now t k' hl]
    by_cases hc : now - t > (m.cooldown_seconds : ℚ)
    · rw [if_pos hc]
      exact lookup_alertsUpsert_ne k k' now m.last_alerts hk
    · rw [if_neg hc]

theorem branchA_fst_indep (w : LogWatcher) (now : ℚ) (sc : ℤ) (ok₁ ok₂ : Bool) :
    (w.branchA now ok₁ sc).1 = (w.branchA now ok₂ sc).1
    ∧ (w.branchA now ok₁ sc).2.1 = (w.branchA now ok₂ sc).2.1 := by
  simp only [LogWatcher.branchA]
  split <;> try exact ⟨rfl, rfl⟩
  split <;> try exact ⟨rfl, rfl⟩
  split <;> exact ⟨rfl, rfl⟩

theorem branchB_fst_indep (w : LogWatcher) (now : ℚ) (p : String) (ok₁ ok₂ : Bool) :
    (w.branchB now ok₁ p).1 = (w.branchB now ok₂ p).1
    ∧ (w.branchB now ok₁ p).2.1 = (w.branchB now ok₂ p).2.1 := by
  simp only [LogWatcher.branchB]
  split <;> try exact ⟨rfl, rfl⟩
  split <;> try exact ⟨rfl, rfl⟩
  split <;> try exact ⟨rfl, rfl⟩
  split <;> exact ⟨rfl, rfl⟩

theorem branchA_cooldown (w : LogWatcher) (now : ℚ) (ok : Bool) (sc : ℤ) :
    (w.branchA now ok sc).1.alert_manager.cooldown_seconds =
      w.alert_manager.cooldown_seconds := by
  simp only [LogWatcher.branchA]
  split <;> try rfl
  split <;> try rfl
  split <;> rw [should_alert_cooldown_preserved]

theorem branchB_cooldown (w : LogWatcher) (now : ℚ) (ok : Bool) (p : String) :
    (w.branchB now ok p).1.alert_manager.cooldown_seconds =
      w.alert_manager.cooldown_seconds := by
  simp only [LogWatcher.branchB]
  split <;> try rfl
  split <;> try rfl
  split <;> try rfl
  split <;> rw [should_alert_cooldown_preserved]

theorem process_cooldown (w : LogWatcher) (now : ℚ) (ok : Bool) (e : Entry) :
    (w.process_log_entry now ok e).1.alert_manager.cooldown_seconds =
      w.alert_manager.cooldown_seconds := by
  unfold LogWatcher.process_log_entry
  cases hx : extractFields e with
  | none => rfl
  | some sp =>
      rcases sp with ⟨sc, p⟩
      simp only [LogWatcher.processFields]
      rw [branchB_cooldown, branchA_cooldown]

theorem branchB_lookup_errorRate (w : LogWatcher) (now : ℚ) (ok : Bool) (p : String) :
    List.lookup kindErrorRate ((w.branchB now ok p).1.alert_manager.last_alerts) =
      List.lookup kindErrorRate w.alert_manager.last_alerts := by
  simp only [LogWatcher.branchB]
  split <;> try rfl
  split <;> try rfl
  split <;> try rfl
  split <;> exact should_alert_lookup_other _ now kindErrorRate kindFailover (by decide)

theorem branchA_errorRate_mem (w : LogWatcher) (now : ℚ) (ok : Bool) (sc : ℤ)
    (s : ErrorStats) (h : AlertIntent.errorRate s ∈ (w.branchA now ok sc).2.1) :
    List.lookup kindErrorRate
      ((w.branchA now ok sc).1.alert_manager.last_alerts) = some now := by
  simp only [LogWatcher.branchA] at h ⊢
  by_cases h0 : sc > 0
  case neg => rw [if_neg h0] at h; simp at h
  case pos =>
    rw [if_pos h0] at h ⊢
    by_cases h1 : (w.error_monitor.add_request sc).1 = true
    case neg => rw [if_neg h1] at h; simp at h
    case pos =>
      rw [if_pos h1] at h ⊢
      by_cases h2 : (({ w with error_monitor := (w.error_monitor.add_request sc).2
          }).alert_manager.should_alert now kindErrorRate).1 = true
      case neg => rw [if_neg h2] at h; simp at h
      case pos =>
        rw [if_pos h2]
        exact should_alert_true_lookup _ now kindErrorRate h2

theorem branchA_no_errorRate_of_recent (w : LogWatcher) (now' : ℚ) (ok : Bool)
    (sc : ℤ) (t : ℚ)
    (hl : List.lookup kindErrorRate w.alert_manager.last_alerts = some t)
    (hc : now' - t ≤ (w.alert_manager.cooldown_seconds : ℚ)) :
    hasErrorRateIntent (w.branchA now' ok sc).2.1 = false := by
  simp only [LogWatcher.branchA]
  by_cases h0 : sc > 0
  case neg => rw [if_neg h0]; rfl
  case pos =>
    rw [if_pos h0]
    by_cases h1 : (w.error_monitor.add_request sc).1 = true
    case neg => rw [if_neg h1]; rfl
    case pos =>
      rw [if_pos h1]
      have hg : (({ w with error_monitor := (w.error_monitor.add_request sc).2
          }).alert_manager.should_alert now' kindErrorRate).1 = false := by
        rw [should_alert_of_lookup_some _ now' t kindErrorRate hl,
          if_neg (not_lt.mpr hc)]
      rw [if_neg (by simp [hg])]
      rfl

theorem not_mem_errorRate_of_false (l : List AlertIntent) (s : ErrorStats)
    (h : hasErrorRateIntent l = false) : AlertIntent.errorRate s ∉ l := by
  intro hm
  unfold hasErrorRateIntent at h
  rw [List.any_eq_false] at h
  simpa using h _ hm

/-! ## Claim C7 -/

/-- Claim C7 — the outcome of an outbound Slack POST has no effect on the
watcher state or on the alert intents produced (a failed dispatch is caught
and only logged); and once an error-rate intent has been produced at time
`now` (even with a failed dispatch), the cooldown timestamp for the
error-rate kind is recorded as `now` and is not rolled back, so processing
any further event at a time at most `cooldown_seconds` later produces no
further error-rate intent. -/
theorem notifier_failure_fire_and_forget :
    (∀ (w : LogWatcher) (now : ℚ) (e : Entry) (ok₁ ok₂ : Bool),
        (w.process_log_entry now ok₁ e).1 = (w.process_log_entry now ok₂ e).1
        ∧ (w.process_log_entry now ok₁ e).2.1 =
            (w.process_log_entry now ok₂ e).2.1)
    ∧ (∀ (w : LogWatcher) (now : ℚ) (e : Entry) (s : ErrorStats),
        AlertIntent.errorRate s ∈ (w.process_log_entry now false e).2.1 →
          List.lookup kindErrorRate
              (((w.process_log_entry now false e).1).alert_manager.last_alerts) =
            some now
          ∧ ∀ (e' : Entry) (now' : ℚ) (ok' : Bool),
              now' - now ≤ (w.alert_manager.cooldown_seconds : ℚ) →
                hasErrorRateIntent
                  ((((w.process_log_entry now false e).1).process_log_entry
                    now' ok' e').2.1) = false) := by
  constructor
  · intro w now e ok₁ ok₂
    unfold LogWatcher.process_log_entry
    cases hx : extractFields e with
    | none => exact ⟨rfl, rfl⟩
    | some sp =>
        rcases sp with ⟨sc, p⟩
        simp only [LogWatcher.processFields]
        have ha := branchA_fst_indep w now sc ok₁ ok₂
        refine ⟨?_, ?_⟩
        · rw [ha.1]
          exact (branchB_fst_indep ((w.branchA now ok₂ sc).1) now p ok₁ ok₂).1
        · dsimp only
          rw [ha.1, ha.2,
            (branchB_fst_indep ((w.branchA now ok₂ sc).1) now p ok₁ ok₂).2]
  · intro w now e s h
    cases hx : extractFields e with
    | none =>
        unfold LogWatcher.process_log_entry at h
        rw [hx] at h
        simp at h
    | some sp =>
        rcases sp with ⟨sc, p⟩
        unfold LogWatcher.process_log_entry at h ⊢
        rw [hx] at h ⊢
        simp only [LogWatcher.processFields] at h ⊢
        have hlook : List.lookup kindErrorRate
            ((((w.branchA now false sc).1).branchB now false p).1.alert_manager.last_alerts) =
            some now := by
          rw [branchB_lookup_errorRate]
          rcases List.mem_append.mp h with hA | hB
          · exact branchA_errorRate_mem w now false sc s hA
          · exact absurd hB
              (not_mem_errorRate_of_false _ s
                (branchB_no_errorRate ((w.branchA now false sc).1) now false p))
        refine ⟨hlook, ?_⟩
        intro e' now' ok' hc
        have hcool : (((w.branchA now false sc).1).branchB now false p).1.alert_manager.cooldown_seconds =
            w.alert_manager.cooldown_seconds := by
          rw [branchB_cooldown, branchA_cooldown]
        cases hx' : extractFields e' with
        | none => simp only [hx']; rfl
        | some sp' =>
            rcases sp' with ⟨sc', p'⟩
            simp only [hx']
            rw [hasErrorRateIntent_append,
              branchA_no_errorRate_of_recent _ now' ok' sc' now hlook
                (by rw [hcool]; exact hc),
              branchB_no_errorRate]
            rfl

/-- Witness for C7: a watcher one request short of the 50-sample floor, all
errors, breaches on the next 503 at time 0 with a FAILED Slack dispatch; the
cooldown record nevertheless shows time 0, and an identical breach event at
time 300 (within the 300 s cooldown) produces no error-rate intent. -/
theorem notifier_failure_fire_and_forget_witness :
    List.lookup kindErrorRate
        (((⟨⟨300, []⟩, PoolTracker.init, ⟨200, 2, List.replicate 49 503⟩, true⟩ :
            LogWatcher).process_log_entry 0 false
          ⟨some (PyVal.vint 503), none, none⟩).1.alert_manager.last_alerts) =
      some 0
    ∧ hasErrorRateIntent
        ((((⟨⟨300, []⟩, PoolTracker.init, ⟨200, 2, List.replicate 49 503⟩, true⟩ :
            LogWatcher).process_log_entry 0 false
          ⟨some (PyVal.vint 503), none, none⟩).1).process_log_entry 300 true
          ⟨some (PyVal.vint 503), none, none⟩).2.1 = false := by
  have hintents :
      ((⟨⟨300, []⟩, PoolTracker.init, ⟨200, 2, List.replicate 49 503⟩, true⟩ :
          LogWatcher).process_log_entry 0 false
        ⟨some (PyVal.vint 503), none, none⟩).2.1 =
      [AlertIntent.errorRate (ErrorRateMonitor.get_current_stats
        ⟨200, 2, List.replicate 49 503 ++ [503]⟩)] := by
    have hbr : ((⟨200, 2, List.replicate 49 503⟩ : ErrorRateMonitor).add_request
        503).1 = true := by
      rw [add_request_fst]
      dsimp only
      rw [if_neg (by decide), decide_eq_true_eq]
      have hec :
          errorCount (dequeAppend 200 (List.replicate 49 (503:ℤ)) 503) = 50 := by
        decide
      have hln :
          (dequeAppend 200 (List.replicate 49 (503:ℤ)) 503).length = 50 := by
        decide
      rw [hec, hln]
      norm_num
    have hx : extractFields ⟨some (PyVal.vint 503), none, none⟩ =
        some (503, "") := rfl
    unfold LogWatcher.process_log_entry
    rw [hx]
    simp only [LogWatcher.processFields, LogWatcher.branchA, LogWatcher.branchB]
    rw [if_pos (by decide : (503:ℤ) > 0), if_pos hbr]
    have hsa : ((⟨300, []⟩ : AlertManager).should_alert 0 kindErrorRate).1 =
        true := by
      rw [should_alert_of_lookup_none ⟨300, []⟩ 0 kindErrorRate rfl]
    rw [if_pos hsa, if_neg (by decide : ¬("" ≠ "")), add_request_snd]
    dsimp only
    rw [show dequeAppend 200 (List.replicate 49 (503:ℤ)) 503 =
        List.replicate 49 503 ++ [503] by decide]
    rfl
  have hmem : AlertIntent.errorRate (ErrorRateMonitor.get_current_stats
      ⟨200, 2, List.replicate 49 503 ++ [503]⟩) ∈
      ((⟨⟨300, []⟩, PoolTracker.init, ⟨200, 2, List.replicate 49 503⟩, true⟩ :
          LogWatcher).process_log_entry 0 false
        ⟨some (PyVal.vint 503), none, none⟩).2.1 := by
    rw [hintents]
    exact List.mem_singleton.mpr rfl
  have h := notifier_failure_fire_and_forget.2
    ⟨⟨300, []⟩, PoolTracker.init, ⟨200, 2, List.replicate 49 503⟩, true⟩ 0
    ⟨some (PyVal.vint 503), none, none⟩
    (ErrorRateMonitor.get_current_stats
      ⟨200, 2, List.replicate 49 503 ++ [503]⟩) hmem
  exact ⟨h.1, h.2 ⟨some (PyVal.vint 503), none, none⟩ 300 true (by norm_num)⟩

/-! ## Claim C10 -/

/-- Claim C10 — if the configured window capacity is below the fixed
minimum-sample floor of 50, `add_request` returns `false` on every call, and
consequently a watcher configured with such a capacity never produces an
error-rate alert intent on any event stream, regardless of status codes,
threshold, cooldown or notifier configuration. -/
theorem small_window_never_error_alert :
    (∀ (m : ErrorRateMonitor) (c : ℤ), m.window_size < 50 →
        (m.add_request c).1 = false)
    ∧ (∀ (θ : ℚ) (W : ℕ) (cd : ℤ) (sl : Bool)
        (events : List (ℚ × Bool × Entry)), W < 50 →
          hasErrorRateIntent
            (runWatcher (LogWatcher.init θ W cd sl) events).2 = false) := by
  refine ⟨addRequest_false_of_small, ?_⟩
  intro θ W cd sl events hW
  unfold runWatcher
  exact runWatcher_no_errorRate_aux events _ [] hW rfl

/-- Witness for C10: with window capacity 10 the first request reports no
breach, and a watcher with capacity 10 produces no error-rate intent on a
concrete 5xx event. -/
theorem small_window_never_error_alert_witness :
    (ErrorRateMonitor.add_request ⟨10, 2, ([] : List ℤ)⟩ 503).1 = false
    ∧ hasErrorRateIntent
        (runWatcher (LogWatcher.init 2 10 300 true)
          [(0, true,
            { status := some (PyVal.vint 503), pool := none,
              upstream_status := none })]).2 = false :=
  ⟨small_window_never_error_alert.1 ⟨10, 2, ([] : List ℤ)⟩ 503 (by decide),
    small_window_never_error_alert.2 2 10 300 true
      [(0, true,
        { status := some (PyVal.vint 503), pool := none,
          upstream_status := none })] (by decide)⟩
